import Mathlib

/-!
Verification of the real-time fraud-scoring engine
(`backend/app/fraud_detection.py`, `backend/config/settings.py`).

The Python service class `FraudDetectionService` is shallow-embedded here:

* Python dicts with insertion order become association lists
  (`aInsert` writes like `d[k] = v`, `alookup` reads like `d.get(k)`).
* Wall-clock instants (`datetime.now()`) are passed explicitly: one
  structured instant (`DateTimeM`) per scoring call, with `epochSec`
  giving seconds since the epoch as an integer.
* The external classifier artifact (`self.model.predict_proba`) is an
  input of each call: `Except String Rat` — `.ok p` is the returned
  probability of the positive class, `.error e` a raised exception
  (caught by `predict_fraud`'s `try`/`except`).
* Python floats are modelled as rationals; `round(x, 4)` becomes
  `round4`.  `np.log1p`, an external numeric routine none of whose
  output values the verified claims depend on, is kept as the symbolic
  feature value `FeatVal.ext "log1p" amount` (present and non-null).
* `timedelta.seconds` (NOT `total_seconds()`) is the field the cache
  freshness test reads; for a delta of `d` whole seconds it equals
  `d % 86400` with Python's mathematical (floor) modulus, which is the
  behaviour of `%` on `Int` here.
* The md5 fingerprint digest of `_hash_claim_features` is modelled by
  the canonical serialization it hashes (an injective model; every
  verified claim treats fingerprints as opaque tokens).
* CPython salts `hash(str)` with a per-process random seed
  (PYTHONHASHSEED), so the interpreter's string-hash function is a
  per-run parameter of the model: `ServiceConfig.pyHash`.
-/

/-- Feature values stored in the one-row pandas DataFrame: numbers,
category strings, or an externally computed numeric (`np.log1p`),
tagged by the routine's name and argument.  None of these is NaN,
mirroring the well-typed inputs of `_prepare_features`. -/
inductive FeatVal where
  | num (q : Rat)
  | str (s : String)
  | ext (tag : String) (arg : Rat)
deriving DecidableEq, Repr

/-- A parsed timestamp: the fields of a `datetime` value that the
engine reads, plus the instant as whole seconds since the epoch. -/
structure DateTimeM where
  hour : Nat
  dayofweek : Nat
  day : Nat
  month : Nat
  epochSec : Int
deriving DecidableEq, Repr

/-- A raw claim record (a Python dict): every field the engine reads
via `claim_data.get(...)`, `none` meaning the key is absent. -/
structure ClaimData where
  claim_id : Option String := none
  patient_id : Option String := none
  doctor_id : Option String := none
  patient_age : Option Int := none
  claim_amount : Option Rat := none
  patient_gender : Option String := none
  medical_scheme : Option String := none
  diagnosis_code : Option String := none
  facility_location : Option String := none
  patient_location : Option String := none
  biometric_verified : Option Bool := none
  patient_present : Option Bool := none
  patient_deceased : Option Bool := none
  weekend_claim : Option Bool := none
  after_hours_claim : Option Bool := none
  emergency_case : Option Bool := none
  travel_distance_suspicious : Option Bool := none
  timestamp : Option DateTimeM := none
deriving DecidableEq, Repr

/-- The result dict built by `predict_fraud`.  Keys that only some
branches of the code write (`base_probability`, `pattern_adjustment`,
`model_version`, `feature_count`, `error`) are `Option`s: `none`
means the key is absent from the returned dict. -/
structure PredictionResult where
  is_fraud : Bool
  fraud_probability : Rat
  base_probability : Option Rat
  pattern_adjustment : Option Rat
  risk_level : String
  confidence_score : Rat
  flags : List String
  processing_time_ms : Rat
  model_version : Option String
  feature_count : Option Nat
  from_cache : Bool
  error : Option String
deriving DecidableEq, Repr

/-- The set of keys present in a result dict, mirroring the dict
literals at the two `return` sites of `predict_fraud`. -/
def resultKeys (r : PredictionResult) : List String :=
  (if r.error.isSome then ["error"] else []) ++
  ["is_fraud", "fraud_probability"] ++
  (if r.base_probability.isSome then ["base_probability"] else []) ++
  (if r.pattern_adjustment.isSome then ["pattern_adjustment"] else []) ++
  ["risk_level", "confidence_score", "flags", "processing_time_ms"] ++
  (if r.model_version.isSome then ["model_version"] else []) ++
  (if r.feature_count.isSome then ["feature_count"] else []) ++
  ["from_cache"]

/-- One entry of `self.prediction_cache`: the `PredictionCache`
dataclass of the source. -/
structure PredictionCacheEntry where
  claim_id : String
  prediction : PredictionResult
  timestamp : Int
  features_hash : String
deriving DecidableEq, Repr

/-- Association-list read: `d.get(k)` on an insertion-ordered dict. -/
def alookup [DecidableEq α] (l : List (α × β)) (k : α) : Option β :=
  (l.find? (fun kv => decide (kv.1 = k))).map (·.2)

/-- Association-list write: `d[k] = v` — overwrite in place if the key
exists, else append (Python dicts keep first-insertion order). -/
def aInsert [DecidableEq α] : List (α × β) → α → β → List (α × β)
  | [], k, v => [(k, v)]
  | kv :: rest, k, v => if kv.1 = k then (k, v) :: rest else kv :: aInsert rest k v

/-- In-place update of the value stored at a key (used to model
mutation through an aliased reference into the dict). -/
def aUpdate [DecidableEq α] : List (α × β) → α → (β → β) → List (α × β)
  | [], _, _ => []
  | kv :: rest, k, f => if kv.1 = k then (kv.1, f kv.2) :: rest else kv :: aUpdate rest k f

/-- `counts[k] = counts.get(k, 0) + 1`. -/
def bump (l : List (String × Nat)) (k : String) : List (String × Nat) :=
  aInsert l k (((alookup l k).getD 0) + 1)

/-- The mutable state of one `FraudDetectionService` instance
(`prediction_cache`, `doctor_claim_counts`, `patient_claim_counts`,
`recent_claims`), as initialized by `__init__`. -/
structure ServiceState where
  prediction_cache : List (String × PredictionCacheEntry) := []
  doctor_claim_counts : List (String × Nat) := []
  patient_claim_counts : List (String × Nat) := []
  recent_claims : List ClaimData := []
deriving DecidableEq, Repr

/-- The empty state built by `__init__`. -/
def initState : ServiceState := {}

/-- The immutable per-instance configuration: loaded label encoders
(class string → integer code, `classes_` being the keys), the ordered
feature-name list from `feature_info.json`, the model version string,
and the current interpreter run's `hash` on strings (per-process
salted in CPython, hence a run parameter). -/
structure ServiceConfig where
  encoders : List (String × List (String × Int)) := []
  feature_names : List String := []
  model_version : String := "unknown"
  pyHash : String → Int := fun _ => 0

/-- Python `round(x, 4)`: round to four decimal places.  (Mathlib's
`round` is half-up at exact ties where Python rounds half-to-even;
no verified claim evaluates `round4` at a tie.) -/
def round4 (q : Rat) : Rat := ((round (q * 10000) : Int) : Rat) / 10000

/-- The default risk-threshold table of `backend/config/settings.py`
(environment overrides absent). -/
def RISK_THRESHOLDS : List (String × Rat) :=
  [("CRITICAL", 4/5), ("HIGH", 3/5), ("MEDIUM", 2/5), ("LOW", 1/5)]

/-- `self.risk_thresholds[level]` under the default table. -/
def riskThreshold (level : String) : Rat := (alookup RISK_THRESHOLDS level).getD 0

/-- `_determine_risk_level`: walk CRITICAL, HIGH, MEDIUM, LOW in order
and return the first level whose threshold the probability meets or
exceeds; `MINIMAL` if none. -/
def determine_risk_level (p : Rat) : String :=
  match ["CRITICAL", "HIGH", "MEDIUM", "LOW"].find? (fun level => decide (riskThreshold level ≤ p)) with
  | some level => level
  | none => "MINIMAL"

/-- Numeric rank of a risk tier (MINIMAL lowest), used to state
monotonicity of the tier in the adjusted probability. -/
def riskRank : String → Nat
  | "CRITICAL" => 4
  | "HIGH" => 3
  | "MEDIUM" => 2
  | "LOW" => 1
  | _ => 0

/-- Python's `pat in s` substring test on the underlying characters. -/
def containsSub (pat : List Char) : List Char → Bool
  | [] => pat.isEmpty
  | c :: rest => pat.isPrefixOf (c :: rest) || containsSub pat rest

/-- Substring containment on strings (`pat in s` in Python). -/
def strHas (s pat : String) : Bool := containsSub pat.toList s.toList

/-- `_is_high_risk_doctor`: the doctor id contains one of the
high-risk naming patterns. -/
def is_high_risk_doctor (doctor_id : String) : Bool :=
  ["DR_X", "TEMP_", "LOCUM_"].any (fun pat => strHas doctor_id pat)

/-- `_categorize_claim_amount`. -/
def categorize_claim_amount (amount : Rat) : String :=
  if amount < 100 then "low"
  else if amount < 1000 then "medium"
  else if amount < 10000 then "high"
  else "very_high"

/-- `_get_age_group`. -/
def get_age_group (age : Rat) : String :=
  if age < 18 then "child"
  else if age < 35 then "young_adult"
  else if age < 50 then "adult"
  else if age < 65 then "middle_aged"
  else "senior"

/-- `self.doctor_claim_counts.get(doctor_id, 0)` — also the body of
`_get_provider_claim_count`. -/
def doctorCount (st : ServiceState) (doctor_id : String) : Nat :=
  (alookup st.doctor_claim_counts doctor_id).getD 0

/-- `self.patient_claim_counts.get(patient_id, 0)`. -/
def patientCount (st : ServiceState) (patient_id : String) : Nat :=
  (alookup st.patient_claim_counts patient_id).getD 0

/-- Categorical encoding of `_prepare_features`: a supplied encoder
maps known classes to their code and unknown classes to -1; with no
encoder for the field, the fallback is `hash(str(value)) % 1000`
under the current run's interpreter string hash. -/
def encodeCategorical (cfg : ServiceConfig) (feature_name value : String) : Int :=
  match alookup cfg.encoders feature_name with
  | some enc => (alookup enc value).getD (-1)
  | none => cfg.pyHash value % 1000

/-- Pad then reorder the built feature dict to the configured
feature-name list (`df[feature] = 0` for absent names, then
`df = df[self.feature_names]`); an empty list leaves the dict as
built. -/
def finalizeFeatures (feature_names : List String) (feats : List (String × FeatVal)) :
    List (String × FeatVal) :=
  if feature_names.isEmpty then feats
  else feature_names.map (fun n => (n, (alookup feats n).getD (FeatVal.num 0)))

/-- `_prepare_features`: build the one-row feature frame from a claim
record.  Every read of the record uses `.get` with a default, so the
function is total — in particular a missing claim/patient/doctor id
never raises. -/
def prepare_features (cfg : ServiceConfig) (st : ServiceState) (nowDT : DateTimeM)
    (c : ClaimData) : List (String × FeatVal) :=
  let dt := c.timestamp.getD nowDT
  let age : Rat := max 0 (min 120 ((c.patient_age.getD 0 : Int) : Rat))
  let amount : Rat := max 0 (c.claim_amount.getD 0)
  let doctor_id := c.doctor_id.getD ""
  let age_group := get_age_group age
  let feats : List (String × FeatVal) :=
    [("hour", FeatVal.num dt.hour),
     ("day_of_week", FeatVal.num dt.dayofweek),
     ("day_of_month", FeatVal.num dt.day),
     ("month", FeatVal.num dt.month),
     ("quarter", FeatVal.num ((dt.month - 1) / 3 + 1 : Nat)),
     ("is_weekend", FeatVal.num (if 5 ≤ dt.dayofweek then 1 else 0)),
     ("is_after_hours", FeatVal.num (if dt.hour < 7 ∨ 18 < dt.hour then 1 else 0)),
     ("is_holiday", FeatVal.num 0),
     ("patient_age", FeatVal.num age),
     ("claim_amount", FeatVal.num amount),
     ("biometric_verified", FeatVal.num (if c.biometric_verified.getD false then 1 else 0)),
     ("patient_present", FeatVal.num (if c.patient_present.getD false then 1 else 0)),
     ("patient_deceased", FeatVal.num (if c.patient_deceased.getD false then 1 else 0)),
     ("weekend_claim", FeatVal.num (if c.weekend_claim.getD false then 1 else 0)),
     ("after_hours_claim", FeatVal.num (if c.after_hours_claim.getD false then 1 else 0)),
     ("emergency_case", FeatVal.num (if c.emergency_case.getD false then 1 else 0)),
     ("travel_distance_suspicious",
       FeatVal.num (if c.travel_distance_suspicious.getD false then 1 else 0)),
     ("expected_cost_min", FeatVal.num (amount * (7/10))),
     ("expected_cost_max", FeatVal.num (amount * (13/10))),
     ("cost_deviation", FeatVal.num 0),
     ("cost_ratio", FeatVal.num 1),
     ("cost_outlier_flag", FeatVal.num (if 10000 < amount then 1 else 0)),
     ("log_claim_amount", FeatVal.ext "log1p" amount),
     ("claim_amount_category", FeatVal.str (categorize_claim_amount amount)),
     ("is_high_risk_doctor",
       FeatVal.num (if strHas doctor_id "DR_X" ∨ is_high_risk_doctor doctor_id then 1 else 0)),
     ("provider_claims_today", FeatVal.num (doctorCount st doctor_id)),
     ("location_mismatch",
       FeatVal.num (if c.patient_location.getD "" ≠ c.facility_location.getD "" then 1 else 0)),
     ("age_group", FeatVal.str age_group),
     ("patient_gender_encoded",
       FeatVal.num (encodeCategorical cfg "patient_gender" (c.patient_gender.getD "M"))),
     ("medical_scheme_encoded",
       FeatVal.num (encodeCategorical cfg "medical_scheme" (c.medical_scheme.getD "PSEMAS"))),
     ("diagnosis_code_encoded",
       FeatVal.num (encodeCategorical cfg "diagnosis_code" (c.diagnosis_code.getD "Z00.0"))),
     ("facility_location_encoded",
       FeatVal.num (encodeCategorical cfg "facility_location" (c.facility_location.getD "UNKNOWN"))),
     ("age_group_encoded", FeatVal.num (encodeCategorical cfg "age_group" age_group))]
  finalizeFeatures cfg.feature_names feats

/-- A DataFrame cell is non-missing (`df.notna()`); no constructor of
`FeatVal` models NaN, mirroring the engine's well-typed inputs. -/
def featNotNA : FeatVal → Bool
  | _ => true

/-- `df.notna().sum().sum() / (df.shape[0] * df.shape[1])` for the
one-row frame. -/
def featureCompleteness (df : List (String × FeatVal)) : Rat :=
  ((df.filter (fun kv => featNotNA kv.2)).length : Rat) / (df.length : Rat)

/-- Numeric read of a row cell, `row.get(k, 0)`; the keys the flag
generator reads always hold `FeatVal.num` cells. -/
def rowGetNum (df : List (String × FeatVal)) (k : String) : Rat :=
  match alookup df k with
  | some (FeatVal.num q) => q
  | _ => 0

/-- The canonical serialization of a rational for fingerprinting. -/
def ratStr (q : Rat) : String := toString q.num ++ "/" ++ toString q.den

/-- Serialization of an optional string field (`None` → `null`). -/
def optStr : Option String → String
  | none => "null"
  | some s => "s:" ++ s

/-- Serialization of an optional numeric field. -/
def optRat : Option Rat → String
  | none => "null"
  | some q => "q:" ++ ratStr q

/-- `_hash_claim_features`: the md5 digest of the key-sorted JSON of
the five fingerprint fields, modelled by the serialized preimage
itself (fields in sorted key order: claim_amount, diagnosis_code,
doctor_id, facility_location, patient_id). -/
def hash_claim_features (c : ClaimData) : String :=
  optRat c.claim_amount ++ "|" ++ optStr c.diagnosis_code ++ "|" ++
  optStr c.doctor_id ++ "|" ++ optStr c.facility_location ++ "|" ++
  optStr c.patient_id

/-- The epoch instant of a recorded claim's timestamp, with
`current_time` as the default for an absent field (the code parses
`claim.get("timestamp", current_time.isoformat())`). -/
def claimEpoch (now : Int) (c : ClaimData) : Int :=
  (c.timestamp.map (·.epochSec)).getD now

/-- `_analyze_patterns`: the four behavioral heuristics evaluated
against the current tracker state, summed then capped at 0.4. -/
def analyze_patterns (st : ServiceState) (now : Int) (c : ClaimData) :
    Rat × List String :=
  let doctor_id := c.doctor_id.getD ""
  let patient_id := c.patient_id.getD ""
  let claim_amount := c.claim_amount.getD 0
  let p1 : Rat × List String :=
    if 10 < doctorCount st doctor_id then (2/10, ["high_frequency_doctor"]) else (0, [])
  let p2 : Rat × List String :=
    if 5 < patientCount st patient_id then (15/100, ["high_frequency_patient"]) else (0, [])
  let identical_amount_count :=
    ((st.recent_claims.drop (st.recent_claims.length - 50)).filter
      (fun cl => |cl.claim_amount.getD 0 - claim_amount| < 1/100)).length
  let p3 : Rat × List String :=
    if 3 ≤ identical_amount_count then (1/10, ["identical_amounts_pattern"]) else (0, [])
  let recent_claims_count :=
    ((st.recent_claims.drop (st.recent_claims.length - 100)).filter
      (fun cl => now - claimEpoch now cl < 300)).length
  let p4 : Rat × List String :=
    if 20 < recent_claims_count then (25/100, ["rapid_fire_claims"]) else (0, [])
  (min (4/10) (p1.1 + p2.1 + p3.1 + p4.1), p1.2 ++ p2.2 ++ p3.2 ++ p4.2)

/-- `_calculate_confidence_score`. -/
def calculate_confidence_score (prob : Rat) (df : List (String × FeatVal))
    (pattern_adj : Rat) : Rat :=
  let base_confidence := if 1/2 < prob then prob else 1 - prob
  let feature_completeness := featureCompleteness df
  let pattern_confidence_boost := min (2/10) (pattern_adj * (1/2))
  min 1 (base_confidence * feature_completeness + pattern_confidence_boost)

/-- Emit a single flag under a condition. -/
def flagIf (b : Bool) (s : String) : List String := if b then [s] else []

/-- The probability-tier flags of `_generate_comprehensive_flags`
(an if/elif/elif chain). -/
def probFlags (prob : Rat) : List String :=
  if 9/10 ≤ prob then ["very_high_confidence_fraud"]
  else if 8/10 ≤ prob then ["high_confidence_fraud"]
  else if 6/10 ≤ prob then ["moderate_confidence_fraud"]
  else []

/-- `_generate_comprehensive_flags` (its `claim_data` argument is
never read by the body). -/
def generate_comprehensive_flags (df : List (String × FeatVal)) (prob : Rat) :
    List String :=
  let age := rowGetNum df "patient_age"
  probFlags prob ++
  flagIf (rowGetNum df "location_mismatch" ≠ 0) "location_mismatch" ++
  flagIf (10000 < rowGetNum df "claim_amount") "high_claim_amount" ++
  flagIf (50000 < rowGetNum df "claim_amount") "extremely_high_claim_amount" ++
  flagIf (rowGetNum df "is_high_risk_doctor" ≠ 0) "high_risk_provider" ++
  flagIf (rowGetNum df "emergency_case" ≠ 0 ∧ rowGetNum df "is_after_hours" ≠ 0)
    "emergency_after_hours" ++
  flagIf (rowGetNum df "patient_deceased" ≠ 0) "deceased_patient_claim" ++
  flagIf (rowGetNum df "biometric_verified" = 0) "no_biometric_verification" ++
  flagIf (rowGetNum df "patient_present" = 0) "patient_not_present" ++
  flagIf (age < 1) "newborn_claim" ++
  flagIf (100 < age) "centenarian_claim"

/-- `timedelta.seconds` for a difference of `d` whole seconds: the
normalized seconds-within-day component, `d` floor-mod 86400. -/
def tdSeconds (d : Int) : Int := d % 86400

/-- The cache test of `predict_fraud` lines 198-207: the fingerprint
has an entry and `(now - inserted).seconds < 300`.  Returns the entry
on a "fresh" hit; `none` means no entry or a stale one (both fall
through to fresh scoring). -/
def cacheLookupFresh (cache : List (String × PredictionCacheEntry)) (now : Int)
    (fp : String) : Option PredictionCacheEntry :=
  match alookup cache fp with
  | none => none
  | some cached => if tdSeconds (now - cached.timestamp) < 300 then some cached else none

/-- Modelled from the spec (§4.2): `lookup` returns Some only if the
entry's age — wall-clock time since insertion — is below the
300-second freshness window. -/
def spec_lookup_is_fresh (now inserted : Int) : Bool := now - inserted < 300

/-- Minimum insertion timestamp over the cache
(`min(keys, key=lambda k: cache[k].timestamp)` keeps the first
minimizer in insertion order). -/
def cacheMinTs : List (α × PredictionCacheEntry) → Option Int
  | [] => none
  | kv :: rest =>
    match cacheMinTs rest with
    | none => some kv.2.timestamp
    | some m => some (min kv.2.timestamp m)

/-- Delete the oldest-inserted entry: the first entry carrying the
minimal insertion timestamp. -/
def evictOldest [DecidableEq α] (c : List (α × PredictionCacheEntry)) :
    List (α × PredictionCacheEntry) :=
  match cacheMinTs c with
  | none => c
  | some m => c.eraseP (fun kv => decide (kv.2.timestamp = m))

/-- The store update of `_cache_prediction`: write the entry under its
fingerprint, then if the store exceeds 1000 entries delete the
oldest-inserted one.  Generic in the key type (the dict never
inspects keys beyond equality). -/
def cachePut [DecidableEq α] (cache : List (α × PredictionCacheEntry)) (k : α)
    (e : PredictionCacheEntry) : List (α × PredictionCacheEntry) :=
  let c1 := aInsert cache k e
  if 1000 < c1.length then evictOldest c1 else c1

/-- `_cache_prediction` on the service state. -/
def cache_prediction (st : ServiceState) (claim_id : String) (result : PredictionResult)
    (features_hash : String) (now : Int) : ServiceState :=
  let entry : PredictionCacheEntry :=
    { claim_id := claim_id, prediction := result, timestamp := now,
      features_hash := features_hash }
  { st with prediction_cache := cachePut st.prediction_cache features_hash entry }

/-- `_update_pattern_tracking`: bump the doctor and patient counters
(skipping empty ids, which are falsy), append the raw claim to
`recent_claims`, and pop the oldest once the history exceeds 1000. -/
def update_pattern_tracking (st : ServiceState) (c : ClaimData) : ServiceState :=
  let d := c.doctor_id.getD ""
  let dc := if d ≠ "" then bump st.doctor_claim_counts d else st.doctor_claim_counts
  let p := c.patient_id.getD ""
  let pc := if p ≠ "" then bump st.patient_claim_counts p else st.patient_claim_counts
  let r1 := st.recent_claims ++ [c]
  let r2 := if 1000 < r1.length then r1.tail else r1
  { st with doctor_claim_counts := dc, patient_claim_counts := pc, recent_claims := r2 }

/-- The typed failure dict built by `predict_fraud`'s `except` branch:
note it carries no `base_probability`, `pattern_adjustment`,
`model_version` or `feature_count` key. -/
def errorPredictionResult (e : String) : PredictionResult :=
  { is_fraud := false, fraud_probability := 0, base_probability := none,
    pattern_adjustment := none, risk_level := "ERROR", confidence_score := 0,
    flags := ["processing_error"], processing_time_ms := 0, model_version := none,
    feature_count := none, from_cache := false, error := some e }

/-- The fresh-scoring path of `predict_fraud` (its body from the
`_prepare_features` call on, taken on a cache miss or a stale entry):
feature build, classifier invocation outcome `probE`, pattern
analysis against the pre-call state, adjustment, tiering, flags,
confidence, then the three state updates — or the typed failure
result if the pipeline raised. -/
def predict_fresh (cfg : ServiceConfig) (st : ServiceState) (nowDT : DateTimeM)
    (probE : Except String Rat) (c : ClaimData) : PredictionResult × ServiceState :=
  let now := nowDT.epochSec
  let claim_id := c.claim_id.getD ("UNKNOWN_" ++ toString now)
  let features_hash := hash_claim_features c
  let df := prepare_features cfg st nowDT c
  match probE with
  | Except.error e => (errorPredictionResult e, st)
  | Except.ok prob =>
    let pa := analyze_patterns st now c
    let pattern_adjustment := pa.1
    let pattern_flags := pa.2
    let adjusted_prob := min 1 (prob + pattern_adjustment)
    let risk_level := determine_risk_level adjusted_prob
    let flags := generate_comprehensive_flags df adjusted_prob ++ pattern_flags
    let confidence_score := calculate_confidence_score adjusted_prob df pattern_adjustment
    let result : PredictionResult :=
      { is_fraud := decide (1/2 ≤ adjusted_prob),
        fraud_probability := round4 adjusted_prob,
        base_probability := some (round4 prob),
        pattern_adjustment := some (round4 pattern_adjustment),
        risk_level := risk_level,
        confidence_score := round4 confidence_score,
        flags := flags,
        processing_time_ms := 0,
        model_version := some cfg.model_version,
        feature_count := some df.length,
        from_cache := false,
        error := none }
    let st1 := cache_prediction st claim_id result features_hash now
    let st2 := update_pattern_tracking st1 c
    (result, st2)

/-- `predict_fraud`: one scoring call.  `nowDT` is the call's wall
clock; `probE` the outcome of the classifier invocation (`.error`
models a raised exception caught by the surrounding `try`).  Returns
the result dict and the service state after the call.  The elapsed
`processing_time_ms` measurement is wall-clock noise, modelled as 0.

On a fresh cache hit the code takes a SHALLOW `dict.copy()` of the
stored result and calls `result["flags"].append(...)`: the copy's
`flags` list is the same object as the stored one, so the append is
visible in the cache — the state update below mirrors that aliasing. -/
def predict_fraud (cfg : ServiceConfig) (st : ServiceState) (nowDT : DateTimeM)
    (probE : Except String Rat) (c : ClaimData) : PredictionResult × ServiceState :=
  let now := nowDT.epochSec
  let claim_id := c.claim_id.getD ("UNKNOWN_" ++ toString now)
  let features_hash := hash_claim_features c
  match cacheLookupFresh st.prediction_cache now features_hash with
  | some cached =>
    let newFlags := cached.prediction.flags ++ ["duplicate_claim_detected"]
    let result := { cached.prediction with flags := newFlags, from_cache := true }
    let cache' := aUpdate st.prediction_cache features_hash
      (fun e => { e with prediction := { e.prediction with flags := newFlags } })
    (result, { st with prediction_cache := cache' })
  | none => predict_fresh cfg st nowDT probE c

/-- One inbound scoring request: the raw claim, the call's wall
clock, and the classifier outcome for it. -/
structure CallInput where
  claim : ClaimData
  now : DateTimeM
  probE : Except String Rat

/-- Run a sequence of scoring calls against a freshly constructed
service instance, keeping only the final state. -/
def runCalls (cfg : ServiceConfig) (inputs : List CallInput) : ServiceState :=
  inputs.foldl (fun st i => (predict_fraud cfg st i.now i.probE i.claim).2) initState

/-! ## Concrete scenario inputs used by the witnesses and counterexamples -/

/-- A configuration with no encoders and no configured feature list
(this run's interpreter string hash is the constant 0). -/
def exCfg : ServiceConfig := {}

/-- The same engine configuration as observed in a second process run
whose interpreter string hash differs (CPython hash randomization). -/
def exCfgRunB : ServiceConfig := { pyHash := fun _ => 1 }

/-- A well-formed example claim. -/
def exClaim : ClaimData :=
  { claim_id := some "CLM001", patient_id := some "P001", doctor_id := some "D001",
    patient_age := some 30, claim_amount := some 5000, patient_gender := some "M",
    medical_scheme := some "PSEMAS", diagnosis_code := some "Z00.0",
    facility_location := some "WINDHOEK", patient_location := some "WINDHOEK",
    timestamp := some ⟨10, 2, 5, 6, 1000000⟩ }

/-- A claim record carrying none of the identifier keys. -/
def exNoIdClaim : ClaimData :=
  { claim_amount := some 500, timestamp := some ⟨10, 2, 5, 6, 1000⟩ }

/-- A wall clock for scoring calls. -/
def exNow : DateTimeM := ⟨10, 2, 5, 6, 1000000⟩

/-- A stored prediction as `_cache_prediction` would have kept it
after a successful fresh scoring of `exClaim`. -/
def exStored : PredictionResult :=
  { is_fraud := false, fraud_probability := 3/10, base_probability := some (3/10),
    pattern_adjustment := some 0, risk_level := "LOW", confidence_score := 7/10,
    flags := ["no_biometric_verification"], processing_time_ms := 0,
    model_version := some "unknown", feature_count := some 33, from_cache := false,
    error := none }

/-- A service state whose cache holds `exStored` under `exClaim`'s
fingerprint, inserted at epoch second 0. -/
def exCacheState : ServiceState :=
  { initState with prediction_cache :=
      [(hash_claim_features exClaim, ⟨"CLM001", exStored, 0, hash_claim_features exClaim⟩)] }

/-- The clock 100 seconds after the cache insertion. -/
def exNow100 : DateTimeM := ⟨10, 2, 5, 6, 100⟩

/-- The clock 200 seconds after the cache insertion. -/
def exNow200 : DateTimeM := ⟨10, 2, 5, 6, 200⟩

/-- The clock exactly one day (86400 s) after the cache insertion. -/
def exNowDayLater : DateTimeM := ⟨10, 2, 5, 6, 86400⟩

/-- First scoring call against the prepared cache state. -/
def exHit1 : PredictionResult × ServiceState :=
  predict_fraud exCfg exCacheState exNow100 (Except.ok (3/10)) exClaim

/-- Second scoring call, immediately after the first. -/
def exHit2 : PredictionResult × ServiceState :=
  predict_fraud exCfg exHit1.2 exNow200 (Except.ok (3/10)) exClaim

/-- The i-th of the eleven prior claims recorded for doctor DOC_A:
distinct patients, distinct claim ids, distinct diagnosis codes and
distinct amounts (so only the doctor-frequency heuristic can fire),
all stamped far in the past (epoch 0). -/
def exPrior (i : Nat) : ClaimData :=
  { claim_id := some ("PC" ++ toString i), patient_id := some ("P" ++ toString i),
    doctor_id := some "DOC_A", patient_age := some 40,
    claim_amount := some ((100 + i : Nat) : Rat),
    diagnosis_code := some ("DG" ++ toString i), facility_location := some "WINDHOEK",
    patient_location := some "WINDHOEK", timestamp := some ⟨9, 1, 4, 6, 0⟩ }

/-- The tracker state after the eleven prior claims of doctor DOC_A
have been recorded. -/
def exStateDoc11 : ServiceState :=
  (List.range 11).foldl (fun st i => update_pattern_tracking st (exPrior i)) initState

/-- The tracker state after exactly ten prior claims of doctor DOC_A
(the doctor-frequency threshold itself) have been recorded. -/
def exStateDoc10 : ServiceState :=
  (List.range 10).foldl (fun st i => update_pattern_tracking st (exPrior i)) initState

/-- The twelfth claim of doctor DOC_A, scored against `exStateDoc11`. -/
def exClaimDoc12 : ClaimData :=
  { claim_id := some "C12", patient_id := some "PX", doctor_id := some "DOC_A",
    patient_age := some 30, claim_amount := some 5000, diagnosis_code := some "Z99.9",
    facility_location := some "WINDHOEK", patient_location := some "WINDHOEK",
    timestamp := some ⟨10, 2, 5, 6, 1000000⟩ }

/-- Modelled from the spec (§3): the field set of PredictionResult. -/
def PREDICTION_RESULT_FIELDS : List String :=
  ["is_fraud", "fraud_probability", "base_probability", "pattern_adjustment",
   "risk_level", "confidence_score", "flags", "processing_time_ms", "from_cache"]

/-- A cache entry for the eviction scenario, inserted at epoch
second `i`. -/
def scenEntry (i : Nat) : PredictionCacheEntry :=
  { claim_id := "SC" ++ toString i, prediction := exStored, timestamp := (i : Int),
    features_hash := "" }

/-- Insert `n` distinct fingerprints (keyed 0,1,2,…, with strictly
increasing insertion timestamps) into an empty store through the store
update of `_cache_prediction`. -/
def cacheScenario (n : Nat) : List (Nat × PredictionCacheEntry) :=
  (List.range n).foldl (fun cch i => cachePut cch i (scenEntry i)) []

/-! ## Supporting lemmas -/

theorem round4_mono {p q : Rat} (h : p ≤ q) : round4 p ≤ round4 q := by
  unfold round4
  have hf : round (p * 10000) ≤ round (q * 10000) := by
    rw [round_eq, round_eq]
    exact Int.floor_mono (by linarith)
  have : ((round (p * 10000) : Int) : Rat) ≤ ((round (q * 10000) : Int) : Rat) := by
    exact_mod_cast hf
  linarith

theorem round4_zero : round4 0 = 0 := by
  unfold round4
  norm_num

theorem round4_one : round4 1 = 1 := by
  unfold round4
  norm_num

theorem round4_two_fifths : round4 (4/10) = 4/10 := by
  unfold round4
  rw [show ((4 : Rat)/10 * 10000) = ((4000 : Int) : Rat) by norm_num, round_intCast]
  norm_num

theorem round4_nonneg {p : Rat} (h : 0 ≤ p) : 0 ≤ round4 p := by
  have := round4_mono h
  rwa [round4_zero] at this

theorem round4_le_one {p : Rat} (h : p ≤ 1) : round4 p ≤ 1 := by
  have := round4_mono h
  rwa [round4_one] at this

theorem featureCompleteness_nonneg (df : List (String × FeatVal)) :
    0 ≤ featureCompleteness df := by
  unfold featureCompleteness
  positivity

theorem featureCompleteness_le_one (df : List (String × FeatVal)) :
    featureCompleteness df ≤ 1 := by
  unfold featureCompleteness
  rcases Nat.eq_zero_or_pos df.length with h | h
  · simp [h, List.length_eq_zero.mp h]
  · rw [div_le_one (by exact_mod_cast h)]
    exact_mod_cast df.length_filter_le _

theorem riskThreshold_CRITICAL : riskThreshold "CRITICAL" = 4/5 := by
  with_unfolding_all rfl

theorem riskThreshold_HIGH : riskThreshold "HIGH" = 3/5 := by
  with_unfolding_all rfl

theorem riskThreshold_MEDIUM : riskThreshold "MEDIUM" = 2/5 := by
  with_unfolding_all rfl

theorem riskThreshold_LOW : riskThreshold "LOW" = 1/5 := by
  with_unfolding_all rfl

theorem determine_risk_level_eq_ite (p : Rat) :
    determine_risk_level p =
      if 4/5 ≤ p then "CRITICAL"
      else if 3/5 ≤ p then "HIGH"
      else if 2/5 ≤ p then "MEDIUM"
      else if 1/5 ≤ p then "LOW"
      else "MINIMAL" := by
  unfold determine_risk_level
  simp only [List.find?, riskThreshold_CRITICAL, riskThreshold_HIGH, riskThreshold_MEDIUM,
    riskThreshold_LOW]
  by_cases h1 : (4:Rat)/5 ≤ p <;> by_cases h2 : (3:Rat)/5 ≤ p <;>
    by_cases h3 : (2:Rat)/5 ≤ p <;> by_cases h4 : (5:Rat)⁻¹ ≤ p <;>
    simp [h1, h2, h3, h4, one_div]

/-- C6: under the default threshold table (LOW 0.2, MEDIUM 0.4, HIGH
0.6, CRITICAL 0.8), the derived risk tier is a monotone non-decreasing
step function of the adjusted probability; the tiers are checked in
descending order CRITICAL, HIGH, MEDIUM, LOW, the first tier whose
threshold the probability meets or exceeds is returned, and MINIMAL is
returned when no threshold is met. -/
theorem c6_risk_level_monotone_first_match :
    (∀ p q : Rat, p ≤ q → riskRank (determine_risk_level p) ≤ riskRank (determine_risk_level q))
    ∧ (∀ p : Rat,
      (determine_risk_level p = "CRITICAL" ↔ 4/5 ≤ p)
      ∧ (determine_risk_level p = "HIGH" ↔ 3/5 ≤ p ∧ p < 4/5)
      ∧ (determine_risk_level p = "MEDIUM" ↔ 2/5 ≤ p ∧ p < 3/5)
      ∧ (determine_risk_level p = "LOW" ↔ 1/5 ≤ p ∧ p < 2/5)
      ∧ (determine_risk_level p = "MINIMAL" ↔ p < 1/5)) := by
  constructor
  · intro p q hpq
    rw [determine_risk_level_eq_ite p, determine_risk_level_eq_ite q]
    split_ifs <;> simp [riskRank] <;> linarith
  · intro p
    rw [determine_risk_level_eq_ite p]
    split_ifs with a b c d <;>
      refine ⟨?_, ?_, ?_, ?_, ?_⟩ <;> simp <;>
      first
        | linarith
        | (intro h5; linarith)
        | (intro h5 h6; linarith)
        | (rintro ⟨h5, h6⟩; linarith)
        | (constructor <;> intro h5 <;> linarith)
        | (constructor <;> (intros; linarith))

/-- Witness for C6 at concrete probabilities: 0.25 maps to a tier no
higher than 0.70's tier. -/
theorem c6_risk_level_monotone_first_match_witness :
    riskRank (determine_risk_level (1/4)) ≤ riskRank (determine_risk_level (7/10)) :=
  c6_risk_level_monotone_first_match.1 (1/4) (7/10) (by norm_num)

/-! ## Claim theorems -/

/-- C1 (code bug): the code reads `.seconds` of the age timedelta,
which wraps modulo 86400, instead of `total_seconds()`.  At the
failing input — a cache entry inserted exactly one day before the
call — the entry's wall-clock age is 86400 s ≥ 300 s, yet
`predict_fraud` returns it from the cache (`from_cache = true` with
the duplicate flag appended), where the claim and the spec's `lookup`
require a fresh inference; the spec-modelled freshness predicate
rejects that age. -/
theorem c1_cache_age_wraps_daily :
    (predict_fraud exCfg exCacheState exNowDayLater (Except.ok (3/10)) exClaim).1.from_cache = true
    ∧ "duplicate_claim_detected"
        ∈ (predict_fraud exCfg exCacheState exNowDayLater (Except.ok (3/10)) exClaim).1.flags
    ∧ spec_lookup_is_fresh exNowDayLater.epochSec 0 = false
    ∧ tdSeconds (exNowDayLater.epochSec - 0) < 300 := by
  refine ⟨by with_unfolding_all rfl, ?_, by with_unfolding_all rfl, by with_unfolding_all decide⟩
  with_unfolding_all decide

/-- C2 (code bug): on a cache hit the code takes a shallow
`dict.copy()` whose `flags` list is shared with the stored result, so
the `append` of `duplicate_claim_detected` mutates the cached entry:
after one hit the stored flags have grown by the duplicate flag, and
a second hit on the same fingerprint returns a result carrying the
flag twice — contradicting "the stored result is never mutated" and
"exactly one appended flag per hit". -/
theorem c2_cache_hit_mutates_stored_result :
    (alookup exHit1.2.prediction_cache (hash_claim_features exClaim)).map
        (fun e => e.prediction.flags)
      = some (exStored.flags ++ ["duplicate_claim_detected"])
    ∧ exHit2.1.flags.count "duplicate_claim_detected" = 2
    ∧ exHit1.1.from_cache = true ∧ exHit2.1.from_cache = true := by
  exact ⟨by with_unfolding_all rfl, by with_unfolding_all rfl,
    by with_unfolding_all rfl, by with_unfolding_all rfl⟩

/-- C3 counterexample: a claim record with no claim id, no patient id
and no doctor id is scored normally — `_prepare_features` defaults
every identifier instead of raising, so the call does not produce the
typed failure result the claim requires for such inputs. -/
theorem c3_missing_identifier_scores_normally :
    (predict_fraud exCfg initState exNow (Except.ok (3/10)) exNoIdClaim).1.risk_level = "LOW"
    ∧ (predict_fraud exCfg initState exNow (Except.ok (3/10)) exNoIdClaim).1.flags
        = ["no_biometric_verification", "patient_not_present", "newborn_claim"]
    ∧ (predict_fraud exCfg initState exNow (Except.ok (3/10)) exNoIdClaim).1.error = none := by
  exact ⟨by with_unfolding_all rfl, by with_unfolding_all rfl, by with_unfolding_all rfl⟩

/-- C3 as amended: feature preparation never raises for a missing
identifier (identifiers are defaulted and scoring proceeds); when the
pipeline after the cache check does raise, `predict_fraud` converts
the exception into the typed failure result — is_fraud=false,
risk_level=ERROR, flags=[processing_error], zero probability and
confidence — and leaves the service state untouched. -/
theorem c3_exception_yields_typed_failure (cfg : ServiceConfig) (st : ServiceState)
    (nowDT : DateTimeM) (c : ClaimData) (e : String)
    (hmiss : cacheLookupFresh st.prediction_cache nowDT.epochSec (hash_claim_features c) = none) :
    predict_fraud cfg st nowDT (Except.error e) c = (errorPredictionResult e, st) := by
  simp only [predict_fraud, hmiss]
  rfl

/-- Witness for the amended C3 at a concrete failing classifier call
on an empty-cache state. -/
theorem c3_exception_yields_typed_failure_witness :
    predict_fraud exCfg initState exNow (Except.error "boom") exClaim
      = (errorPredictionResult "boom", initState) :=
  c3_exception_yields_typed_failure exCfg initState exNow exClaim "boom" rfl

/-- C9 (code bug): the fallback categorical code is
`hash(str(value)) % 1000` with CPython's per-process-salted string
hash, so the code a value receives depends on the run: under the two
modelled runs (interpreter hashes differing, as hash randomization
permits), the same value "PSEMAS" encodes to different codes, against
the claim that any two runs produce the same integer code. -/
theorem c9_fallback_encoding_run_dependent :
    encodeCategorical exCfg "medical_scheme" "PSEMAS" = 0
    ∧ encodeCategorical exCfgRunB "medical_scheme" "PSEMAS" = 1
    ∧ encodeCategorical exCfg "medical_scheme" "PSEMAS"
        ≠ encodeCategorical exCfgRunB "medical_scheme" "PSEMAS" := by
  exact ⟨by with_unfolding_all rfl, by with_unfolding_all rfl, by with_unfolding_all decide⟩

/-- C10 counterexample: the typed failure result returned when the
scoring pipeline raises carries neither a `base_probability` nor a
`pattern_adjustment` key, so not every result contains all of the
PredictionResult fields. -/
theorem c10_error_result_missing_fields :
    "base_probability"
        ∉ resultKeys (predict_fraud exCfg initState exNow (Except.error "boom") exClaim).1
    ∧ "pattern_adjustment"
        ∉ resultKeys (predict_fraud exCfg initState exNow (Except.error "boom") exClaim).1 := by
  exact ⟨by with_unfolding_all decide, by with_unfolding_all decide⟩

/-- C10 as amended: every freshly scored result carries all nine
PredictionResult fields, but the typed failure result carries only
seven of them — it omits base_probability and pattern_adjustment and
adds an error key. -/
theorem c10_result_field_presence (cfg : ServiceConfig) (st : ServiceState)
    (nowDT : DateTimeM) (prob : Rat) (c : ClaimData)
    (hmiss : cacheLookupFresh st.prediction_cache nowDT.epochSec (hash_claim_features c) = none) :
    (∀ f ∈ PREDICTION_RESULT_FIELDS,
      f ∈ resultKeys (predict_fraud cfg st nowDT (Except.ok prob) c).1)
    ∧ ∀ e : String, resultKeys (errorPredictionResult e)
        = ["error", "is_fraud", "fraud_probability", "risk_level", "confidence_score",
           "flags", "processing_time_ms", "from_cache"] := by
  constructor
  · intro f hf
    have hkeys : resultKeys (predict_fraud cfg st nowDT (Except.ok prob) c).1
        = ["is_fraud", "fraud_probability", "base_probability", "pattern_adjustment",
           "risk_level", "confidence_score", "flags", "processing_time_ms",
           "model_version", "feature_count", "from_cache"] := by
      simp only [predict_fraud, hmiss]
      rfl
    rw [hkeys]
    fin_cases hf <;> simp
  · intro e
    rfl

/-- Witness for the amended C10: on a fresh call against the empty
state, the base_probability key is present. -/
theorem c10_result_field_presence_witness :
    "base_probability"
      ∈ resultKeys (predict_fraud exCfg initState exNow (Except.ok (3/10)) exClaim).1 :=
  (c10_result_field_presence exCfg initState exNow (3/10) exClaim rfl).1
    "base_probability" (by simp [PREDICTION_RESULT_FIELDS])

/-- C7: scoring a claim whose doctor has exactly 11 previously
recorded claims, with classifier base probability 0.30, yields
pattern adjustment 0.20 with the high_frequency_doctor flag, adjusted
probability 0.50, is_fraud = true, and risk level MEDIUM under the
default thresholds. -/
theorem c7_high_frequency_doctor_scenario :
    doctorCount exStateDoc11 "DOC_A" = 11
    ∧ (predict_fraud exCfg exStateDoc11 exNow (Except.ok (3/10)) exClaimDoc12).1.pattern_adjustment
        = some (2/10)
    ∧ "high_frequency_doctor"
        ∈ (predict_fraud exCfg exStateDoc11 exNow (Except.ok (3/10)) exClaimDoc12).1.flags
    ∧ (predict_fraud exCfg exStateDoc11 exNow (Except.ok (3/10)) exClaimDoc12).1.fraud_probability
        = 1/2
    ∧ (predict_fraud exCfg exStateDoc11 exNow (Except.ok (3/10)) exClaimDoc12).1.is_fraud = true
    ∧ (predict_fraud exCfg exStateDoc11 exNow (Except.ok (3/10)) exClaimDoc12).1.risk_level
        = "MEDIUM" := by
  refine ⟨by with_unfolding_all rfl, by with_unfolding_all decide, by with_unfolding_all decide,
    by with_unfolding_all decide, by with_unfolding_all rfl, by with_unfolding_all rfl⟩

theorem analyze_patterns_adjustment_nonneg (st : ServiceState) (now : Int) (c : ClaimData) :
    0 ≤ (analyze_patterns st now c).1 := by
  unfold analyze_patterns
  dsimp only
  apply le_min (by norm_num)
  split_ifs <;> norm_num

theorem analyze_patterns_adjustment_le (st : ServiceState) (now : Int) (c : ClaimData) :
    (analyze_patterns st now c).1 ≤ 4/10 := by
  unfold analyze_patterns
  exact min_le_left _ _

theorem calculate_confidence_score_bounds (p : Rat) (df : List (String × FeatVal)) (a : Rat)
    (hp0 : 0 ≤ p) (hp1 : p ≤ 1) (ha : 0 ≤ a) :
    0 ≤ calculate_confidence_score p df a ∧ calculate_confidence_score p df a ≤ 1 := by
  unfold calculate_confidence_score
  constructor
  · apply le_min (by norm_num)
    have hbc : 0 ≤ (if 1/2 < p then p else 1 - p) := by split_ifs <;> linarith
    have hfc := featureCompleteness_nonneg df
    have hboost : (0:Rat) ≤ min (2/10) (a * (1/2)) := le_min (by norm_num) (by linarith)
    have hprod := mul_nonneg hbc hfc
    linarith
  · exact min_le_left _ _

theorem predict_fresh_ok_fst (cfg : ServiceConfig) (st : ServiceState) (nowDT : DateTimeM)
    (prob : Rat) (c : ClaimData) :
    (predict_fresh cfg st nowDT (Except.ok prob) c).1 =
      { is_fraud := decide (1/2 ≤ min 1 (prob + (analyze_patterns st nowDT.epochSec c).1)),
        fraud_probability := round4 (min 1 (prob + (analyze_patterns st nowDT.epochSec c).1)),
        base_probability := some (round4 prob),
        pattern_adjustment := some (round4 (analyze_patterns st nowDT.epochSec c).1),
        risk_level := determine_risk_level (min 1 (prob + (analyze_patterns st nowDT.epochSec c).1)),
        confidence_score := round4 (calculate_confidence_score
          (min 1 (prob + (analyze_patterns st nowDT.epochSec c).1))
          (prepare_features cfg st nowDT c) (analyze_patterns st nowDT.epochSec c).1),
        flags := generate_comprehensive_flags (prepare_features cfg st nowDT c)
            (min 1 (prob + (analyze_patterns st nowDT.epochSec c).1))
          ++ (analyze_patterns st nowDT.epochSec c).2,
        processing_time_ms := 0,
        model_version := some cfg.model_version,
        feature_count := some (prepare_features cfg st nowDT c).length,
        from_cache := false,
        error := none } := rfl

theorem predict_fresh_ok_snd (cfg : ServiceConfig) (st : ServiceState) (nowDT : DateTimeM)
    (prob : Rat) (c : ClaimData) :
    (predict_fresh cfg st nowDT (Except.ok prob) c).2 =
      update_pattern_tracking
        (cache_prediction st (c.claim_id.getD ("UNKNOWN_" ++ toString nowDT.epochSec))
          (predict_fresh cfg st nowDT (Except.ok prob) c).1
          (hash_claim_features c) nowDT.epochSec) c := rfl

theorem predict_fraud_of_miss (cfg : ServiceConfig) (st : ServiceState) (nowDT : DateTimeM)
    (probE : Except String Rat) (c : ClaimData)
    (hmiss : cacheLookupFresh st.prediction_cache nowDT.epochSec (hash_claim_features c) = none) :
    predict_fraud cfg st nowDT probE c = predict_fresh cfg st nowDT probE c := by
  simp only [predict_fraud, hmiss]

/-- C4: for every freshly scored claim whose classifier base
probability lies in [0,1], the returned fraud_probability,
base_probability and confidence_score lie in [0,1], and the
pattern_adjustment (heuristics summed, then clamped) lies in
[0, 0.40]. -/
theorem c4_result_bounds (cfg : ServiceConfig) (st : ServiceState) (nowDT : DateTimeM)
    (prob : Rat) (c : ClaimData) (h0 : 0 ≤ prob) (h1 : prob ≤ 1)
    (hmiss : cacheLookupFresh st.prediction_cache nowDT.epochSec (hash_claim_features c) = none) :
    0 ≤ (predict_fraud cfg st nowDT (Except.ok prob) c).1.fraud_probability
    ∧ (predict_fraud cfg st nowDT (Except.ok prob) c).1.fraud_probability ≤ 1
    ∧ 0 ≤ ((predict_fraud cfg st nowDT (Except.ok prob) c).1.base_probability.getD 0)
    ∧ ((predict_fraud cfg st nowDT (Except.ok prob) c).1.base_probability.getD 0) ≤ 1
    ∧ 0 ≤ (predict_fraud cfg st nowDT (Except.ok prob) c).1.confidence_score
    ∧ (predict_fraud cfg st nowDT (Except.ok prob) c).1.confidence_score ≤ 1
    ∧ 0 ≤ ((predict_fraud cfg st nowDT (Except.ok prob) c).1.pattern_adjustment.getD 0)
    ∧ ((predict_fraud cfg st nowDT (Except.ok prob) c).1.pattern_adjustment.getD 0) ≤ 4/10 := by
  rw [predict_fraud_of_miss cfg st nowDT (Except.ok prob) c hmiss, predict_fresh_ok_fst]
  have ha0 := analyze_patterns_adjustment_nonneg st nowDT.epochSec c
  have ha4 := analyze_patterns_adjustment_le st nowDT.epochSec c
  have hadj0 : 0 ≤ min 1 (prob + (analyze_patterns st nowDT.epochSec c).1) :=
    le_min (by norm_num) (by linarith)
  have hadj1 : min 1 (prob + (analyze_patterns st nowDT.epochSec c).1) ≤ 1 :=
    min_le_left _ _
  have hcc := calculate_confidence_score_bounds
    (min 1 (prob + (analyze_patterns st nowDT.epochSec c).1))
    (prepare_features cfg st nowDT c) (analyze_patterns st nowDT.epochSec c).1
    hadj0 hadj1 ha0
  refine ⟨round4_nonneg hadj0, round4_le_one hadj1, round4_nonneg h0, round4_le_one h1,
    round4_nonneg hcc.1, round4_le_one hcc.2, round4_nonneg ha0, ?_⟩
  have := round4_mono ha4
  rwa [round4_two_fifths] at this

/-- Witness for C4 at base probability 0.30 on the empty state. -/
theorem c4_result_bounds_witness :
    0 ≤ (predict_fraud exCfg initState exNow (Except.ok (3/10)) exClaim).1.fraud_probability :=
  (c4_result_bounds exCfg initState exNow (3/10) exClaim
    (of_decide_eq_true (by with_unfolding_all rfl))
    (of_decide_eq_true (by with_unfolding_all rfl)) rfl).1

theorem mem_flagIf {b : Bool} {x s : String} (h : x ∈ flagIf b s) : x = s := by
  unfold flagIf at h
  split at h <;> simp_all

theorem mem_probFlags {x : String} {p : Rat} (h : x ∈ probFlags p) :
    x ∈ ["very_high_confidence_fraud", "high_confidence_fraud", "moderate_confidence_fraud"] := by
  unfold probFlags at h
  split_ifs at h <;> simp_all

theorem hfd_not_mem_generate (df : List (String × FeatVal)) (p : Rat) :
    "high_frequency_doctor" ∉ generate_comprehensive_flags df p := by
  intro h
  unfold generate_comprehensive_flags at h
  simp only [List.mem_append] at h
  rcases h with (((((((((h | h) | h) | h) | h) | h) | h) | h) | h) | h) | h
  · have := mem_probFlags h
    simp at this
  all_goals
    have := mem_flagIf h
    simp at this

theorem hfd_mem_analyze_iff (st : ServiceState) (now : Int) (c : ClaimData) :
    ("high_frequency_doctor" ∈ (analyze_patterns st now c).2
      ↔ 10 < doctorCount st (c.doctor_id.getD "")) := by
  unfold analyze_patterns
  dsimp only
  split_ifs <;> simp_all

theorem alookup_aInsert [DecidableEq α] (l : List (α × β)) (k : α) (v : β) :
    alookup (aInsert l k v) k = some v := by
  induction l with
  | nil => simp [aInsert, alookup, List.find?]
  | cons kv rest ih =>
    unfold aInsert
    split_ifs with h
    · simp [alookup, List.find?]
    · simpa [alookup, List.find?, h] using ih

theorem doctorCount_cache_prediction (st : ServiceState) (cid : String)
    (r : PredictionResult) (fp : String) (now : Int) (d : String) :
    doctorCount (cache_prediction st cid r fp now) d = doctorCount st d := rfl

theorem doctorCount_update_pattern_tracking (st : ServiceState) (c : ClaimData) (d : String)
    (hd : c.doctor_id = some d) (hne : d ≠ "") :
    doctorCount (update_pattern_tracking st c) d = doctorCount st d + 1 := by
  unfold update_pattern_tracking doctorCount bump
  simp only [hd, Option.getD_some, if_pos hne]
  rw [alookup_aInsert]
  rfl

/-- C5: a freshly scored claim is analyzed against the tracker state
as it stood BEFORE the claim is recorded — the returned adjustment
and flags come from `analyze_patterns` on the pre-call state, the
post-call state is the pre-call state with the claim recorded
afterwards, and a doctor sitting exactly at the threshold (10 prior
claims) does not trigger high_frequency_doctor even though the
recorded count reaches 11 after the call: the claim is never counted
against itself. -/
theorem c5_analyze_precedes_record (cfg : ServiceConfig) (st : ServiceState)
    (nowDT : DateTimeM) (prob : Rat) (c : ClaimData) (d : String)
    (hmiss : cacheLookupFresh st.prediction_cache nowDT.epochSec (hash_claim_features c) = none)
    (hd : c.doctor_id = some d) (hne : d ≠ "") (hcount : doctorCount st d = 10) :
    (predict_fraud cfg st nowDT (Except.ok prob) c).1.pattern_adjustment
        = some (round4 (analyze_patterns st nowDT.epochSec c).1)
    ∧ (predict_fraud cfg st nowDT (Except.ok prob) c).1.flags
        = generate_comprehensive_flags (prepare_features cfg st nowDT c)
            (min 1 (prob + (analyze_patterns st nowDT.epochSec c).1))
          ++ (analyze_patterns st nowDT.epochSec c).2
    ∧ "high_frequency_doctor" ∉ (predict_fraud cfg st nowDT (Except.ok prob) c).1.flags
    ∧ doctorCount (predict_fraud cfg st nowDT (Except.ok prob) c).2 d = 11
    ∧ (predict_fraud cfg st nowDT (Except.ok prob) c).2
        = update_pattern_tracking
            (cache_prediction st (c.claim_id.getD ("UNKNOWN_" ++ toString nowDT.epochSec))
              (predict_fraud cfg st nowDT (Except.ok prob) c).1
              (hash_claim_features c) nowDT.epochSec) c := by
  rw [predict_fraud_of_miss cfg st nowDT (Except.ok prob) c hmiss]
  refine ⟨by rw [predict_fresh_ok_fst], by rw [predict_fresh_ok_fst], ?_, ?_, ?_⟩
  · rw [predict_fresh_ok_fst]
    intro hmem
    simp only [List.mem_append] at hmem
    rcases hmem with hmem | hmem
    · exact hfd_not_mem_generate _ _ hmem
    · have h10 := (hfd_mem_analyze_iff st nowDT.epochSec c).mp hmem
      rw [hd] at h10
      simp only [Option.getD_some] at h10
      omega
  · rw [predict_fresh_ok_snd,
      doctorCount_update_pattern_tracking _ c d hd hne,
      doctorCount_cache_prediction, hcount]
  · rw [predict_fresh_ok_snd]

/-- Witness for C5: doctor DOC_A with exactly ten recorded prior
claims, scored at base probability 0.30. -/
theorem c5_analyze_precedes_record_witness :
    doctorCount (predict_fraud exCfg exStateDoc10 exNow (Except.ok (3/10)) exClaimDoc12).2 "DOC_A"
      = 11 :=
  (c5_analyze_precedes_record exCfg exStateDoc10 exNow (3/10) exClaimDoc12 "DOC_A"
    rfl rfl (of_decide_eq_true (by with_unfolding_all rfl))
    (of_decide_eq_true (by with_unfolding_all rfl))).2.2.2.1

theorem aInsert_length_le [DecidableEq α] (l : List (α × β)) (k : α) (v : β) :
    (aInsert l k v).length ≤ l.length + 1 := by
  induction l with
  | nil => simp [aInsert]
  | cons kv rest ih =>
    unfold aInsert
    split_ifs <;> simp <;> omega

theorem aUpdate_length [DecidableEq α] (l : List (α × β)) (k : α) (f : β → β) :
    (aUpdate l k f).length = l.length := by
  induction l with
  | nil => simp [aUpdate]
  | cons kv rest ih =>
    unfold aUpdate
    split_ifs <;> simp [ih]

theorem cacheMinTs_mem (l : List (α × PredictionCacheEntry)) (m : Int)
    (h : cacheMinTs l = some m) : ∃ kv ∈ l, kv.2.timestamp = m := by
  induction l generalizing m with
  | nil => simp [cacheMinTs] at h
  | cons kv rest ih =>
    unfold cacheMinTs at h
    cases hrest : cacheMinTs rest with
    | none =>
      rw [hrest] at h
      simp at h
      exact ⟨kv, by simp, h⟩
    | some m' =>
      rw [hrest] at h
      simp at h
      rcases le_total kv.2.timestamp m' with hle | hle
      · exact ⟨kv, by simp, by rw [← h]; exact (min_eq_left hle).symm⟩
      · obtain ⟨kv', hkv', hts⟩ := ih m' hrest
        exact ⟨kv', by simp [hkv'], by rw [hts, ← h]; exact (min_eq_right hle).symm⟩

theorem cacheMinTs_isSome (l : List (α × PredictionCacheEntry)) (h : l ≠ []) :
    ∃ m, cacheMinTs l = some m := by
  cases l with
  | nil => simp at h
  | cons kv rest =>
    unfold cacheMinTs
    cases cacheMinTs rest <;> simp

theorem evictOldest_length [DecidableEq α] (l : List (α × PredictionCacheEntry)) (h : l ≠ []) :
    (evictOldest l).length = l.length - 1 := by
  obtain ⟨m, hm⟩ := cacheMinTs_isSome l h
  obtain ⟨kv, hmem, hts⟩ := cacheMinTs_mem l m hm
  unfold evictOldest
  rw [hm]
  exact List.length_eraseP_of_mem hmem (by simp [hts])

theorem cachePut_length_le [DecidableEq α] (cache : List (α × PredictionCacheEntry))
    (k : α) (e : PredictionCacheEntry) (h : cache.length ≤ 1000) :
    (cachePut cache k e).length ≤ 1000 := by
  unfold cachePut
  have h1 := aInsert_length_le cache k e
  dsimp only
  split_ifs with hgt
  · have hne : aInsert cache k e ≠ [] := by
      intro habs
      rw [habs] at hgt
      simp at hgt
    rw [evictOldest_length _ hne]
    omega
  · omega

theorem predict_fraud_preserves_bounds (cfg : ServiceConfig) (st : ServiceState)
    (nowDT : DateTimeM) (probE : Except String Rat) (c : ClaimData)
    (h1 : st.prediction_cache.length ≤ 1000) (h2 : st.recent_claims.length ≤ 1000) :
    (predict_fraud cfg st nowDT probE c).2.prediction_cache.length ≤ 1000
    ∧ (predict_fraud cfg st nowDT probE c).2.recent_claims.length ≤ 1000 := by
  unfold predict_fraud
  dsimp only
  cases hl : cacheLookupFresh st.prediction_cache nowDT.epochSec (hash_claim_features c) with
  | some cached =>
    dsimp only
    rw [aUpdate_length]
    exact ⟨h1, h2⟩
  | none =>
    dsimp only
    unfold predict_fresh
    cases probE with
    | error e => exact ⟨h1, h2⟩
    | ok prob =>
      dsimp only
      constructor
      · exact cachePut_length_le _ _ _ h1
      · dsimp [update_pattern_tracking, cache_prediction]
        split_ifs with hgt
        · simp
          omega
        · simp at hgt ⊢
          omega

theorem runCalls_preserves_bounds (cfg : ServiceConfig) (inputs : List CallInput)
    (st : ServiceState) (h1 : st.prediction_cache.length ≤ 1000)
    (h2 : st.recent_claims.length ≤ 1000) :
    (inputs.foldl (fun s i => (predict_fraud cfg s i.now i.probE i.claim).2) st).prediction_cache.length ≤ 1000
    ∧ (inputs.foldl (fun s i => (predict_fraud cfg s i.now i.probE i.claim).2) st).recent_claims.length ≤ 1000 := by
  induction inputs generalizing st with
  | nil => exact ⟨h1, h2⟩
  | cons i rest ih =>
    simp only [List.foldl_cons]
    have hstep := predict_fraud_preserves_bounds cfg st i.now i.probE i.claim h1 h2
    exact ih _ hstep.1 hstep.2

theorem aInsert_append [DecidableEq α] (l : List (α × β)) (k : α) (v : β)
    (h : ∀ kv ∈ l, kv.1 ≠ k) : aInsert l k v = l ++ [(k, v)] := by
  induction l with
  | nil => rfl
  | cons kv rest ih =>
    unfold aInsert
    rw [if_neg (h kv (by simp))]
    simp only [List.cons_append, List.cons.injEq, true_and]
    exact ih (fun kv' hkv' => h kv' (by simp [hkv']))

theorem cacheMinTs_ge (l : List (α × PredictionCacheEntry)) (m : Int)
    (h : ∀ kv ∈ l, m ≤ kv.2.timestamp) (m' : Int) (hm' : cacheMinTs l = some m') :
    m ≤ m' := by
  induction l generalizing m' with
  | nil => simp [cacheMinTs] at hm'
  | cons kv rest ih =>
    unfold cacheMinTs at hm'
    cases hrest : cacheMinTs rest with
    | none =>
      rw [hrest] at hm'
      simp at hm'
      rw [← hm']
      exact h kv (by simp)
    | some mr =>
      rw [hrest] at hm'
      simp at hm'
      rw [← hm']
      exact le_min (h kv (by simp)) (ih (fun kv' hkv' => h kv' (by simp [hkv'])) mr hrest)

theorem cacheMinTs_head (k0 : α) (e0 : PredictionCacheEntry)
    (rest : List (α × PredictionCacheEntry))
    (h : ∀ kv ∈ rest, e0.timestamp ≤ kv.2.timestamp) :
    cacheMinTs ((k0, e0) :: rest) = some e0.timestamp := by
  unfold cacheMinTs
  cases hrest : cacheMinTs rest with
  | none => rfl
  | some mr =>
    have := cacheMinTs_ge rest e0.timestamp h mr hrest
    simp [min_eq_left this]

theorem evictOldest_head [DecidableEq α] (k0 : α) (e0 : PredictionCacheEntry)
    (rest : List (α × PredictionCacheEntry))
    (h : ∀ kv ∈ rest, e0.timestamp ≤ kv.2.timestamp) :
    evictOldest ((k0, e0) :: rest) = rest := by
  unfold evictOldest
  rw [cacheMinTs_head k0 e0 rest h]
  exact List.eraseP_cons_of_pos (by simp)

theorem cacheScenario_closed (n : Nat) :
    cacheScenario n = (List.range' (n - 1000) (min n 1000)).map (fun i => (i, scenEntry i)) := by
  induction n with
  | zero => rfl
  | succ n ih =>
    have hfold : cacheScenario (n + 1) = cachePut (cacheScenario n) n (scenEntry n) := by
      unfold cacheScenario
      rw [List.range_succ, List.foldl_append]
      rfl
    have harg : n - 1000 + 1 * min n 1000 = n := by omega
    have hnotmem : ∀ kv ∈ (List.range' (n - 1000) (min n 1000)).map
        (fun i => (i, scenEntry i)), kv.1 ≠ n := by
      intro kv hkv
      simp only [List.mem_map] at hkv
      obtain ⟨i, hi, rfl⟩ := hkv
      have hlt := (List.mem_range'_1).mp hi
      simp only
      omega
    have hcomb : (List.range' (n - 1000) (min n 1000)).map (fun i => (i, scenEntry i))
          ++ [(n, scenEntry n)]
        = (List.range' (n - 1000) (min n 1000 + 1)).map (fun i => (i, scenEntry i)) := by
      rw [List.range'_concat, List.map_append, harg]
      rfl
    rw [hfold, ih]
    unfold cachePut
    rw [aInsert_append _ _ _ hnotmem, hcomb]
    dsimp only
    rw [List.length_map, List.length_range']
    by_cases hcase : 1000 ≤ n
    · rw [if_pos (by omega)]
      have hmin : min n 1000 + 1 = 1000 + 1 := by omega
      rw [hmin, List.range'_succ, List.map_cons]
      rw [evictOldest_head _ _ _ ?hts]
      case hts =>
        intro kv hkv
        simp only [List.mem_map] at hkv
        obtain ⟨i, hi, rfl⟩ := hkv
        have hge := (List.mem_range'_1).mp hi
        show ((n - 1000 : Nat) : Int) ≤ ((i : Nat) : Int)
        exact_mod_cast Nat.le_of_lt (by omega)
      have h1 : n - 1000 + 1 = n + 1 - 1000 := by omega
      have h2 : min (n + 1) 1000 = 1000 := by omega
      rw [h1, h2]
    · rw [if_neg (by omega)]
      have h1 : n - 1000 = n + 1 - 1000 := by omega
      have h2 : min n 1000 + 1 = min (n + 1) 1000 := by omega
      rw [h1, h2]

/-- C8: after any sequence of scoring calls against a fresh engine,
the fingerprint cache holds at most 1000 entries and the recent-claims
history holds at most 1000 entries; and inserting 1500 distinct
fingerprints (through the store update of `_cache_prediction`) leaves
exactly 1000 entries — precisely the 1000 newest, the 500
oldest-inserted having been evicted. -/
theorem c8_bounded_stores :
    (∀ (cfg : ServiceConfig) (inputs : List CallInput),
      (runCalls cfg inputs).prediction_cache.length ≤ 1000
      ∧ (runCalls cfg inputs).recent_claims.length ≤ 1000)
    ∧ (cacheScenario 1500).length = 1000
    ∧ (cacheScenario 1500).map (fun kv => kv.1) = List.range' 500 1000 := by
  refine ⟨?_, ?_, ?_⟩
  · intro cfg inputs
    unfold runCalls
    exact runCalls_preserves_bounds cfg inputs initState (by simp [initState]) (by simp [initState])
  · rw [cacheScenario_closed]
    simp
  · rw [cacheScenario_closed]
    rw [List.map_map]
    norm_num
    exact List.map_id _
